import Mathlib

/-!
Verification of the UART WebSocket bridge core (`uart_manager.py`,
`websocket_handler.py`, `main.py`) via a shallow embedding.

Machine state is passed explicitly: each Python method that mutates `self`
becomes a Lean function `State → ... → State × result`.  The serial device
and the client sessions are modelled as values carrying their observable
behaviour (whether a given operation raises) plus a log of what they
received, so that "the device receives exactly these bytes" is a statement
about the log.
-/

namespace UartBridge

/-- Outcome of a device-level `serial_port.write(data)` call: either it
returns a byte count, or it raises one of the exception classes that
`UARTManager.write` catches (`SerialTimeoutException`, `SerialException`,
any other `Exception`). -/
inductive DevWriteRes where
  | ok (bytesWritten : Nat)
  | timeout
  | serialError
  | otherError
deriving DecidableEq, Repr

/-- Model of a `serial.Serial` device handle.  `is_open` is pyserial's own
open flag; `written` logs every payload the device accepted, in order;
`writeRes` is the device's behaviour on a given payload and `flushOk`
whether `flush()` raises. -/
structure SerialDevice where
  is_open : Bool
  written : List (List Nat)
  writeRes : List Nat → DevWriteRes
  flushOk : Bool

/-- The relevant UART fields of the global `Settings` object
(`config.py`), with their defaults. -/
structure Settings where
  uart_port : String
  uart_baudrate : Nat
  uart_bytesize : Nat
  uart_stopbits : Nat
  uart_parity : String
deriving DecidableEq, Repr

def settings : Settings :=
  { uart_port := "/dev/ttyUSB0"
    uart_baudrate := 115200
    uart_bytesize := 8
    uart_stopbits := 1
    uart_parity := "N" }

/-- `models.UARTStatus`. -/
structure UARTStatus where
  connected : Bool
  port : String
  baudrate : Nat
  bytesize : Nat
  stopbits : Nat
  parity : String
deriving DecidableEq, Repr

/-- State of `UARTManager` (`uart_manager.py`).  `read_threads_started`
counts how many reader loops have been launched, so that "no new reader
loop is started" is expressible. -/
structure UARTManager where
  serial_port : Option SerialDevice
  is_open : Bool
  running : Bool
  read_threads_started : Nat

/-- `UARTManager.__init__`. -/
def UARTManager.init : UARTManager :=
  { serial_port := none, is_open := false, running := false
    read_threads_started := 0 }

/-- `UARTManager.connect`.  Opening the device (`serial.Serial(**cfg)`)
either yields a fresh handle or raises; the environment's answer for the
current configuration is passed in as `openResult` (`none` = the
constructor raised).  If already open, returns `True` at once; on success
stores the handle, sets the flags and starts the reader thread; on failure
sets `is_open = False` and returns `False`. -/
def UARTManager.connect (m : UARTManager) (openResult : Option SerialDevice) :
    UARTManager × Bool :=
  if m.is_open then
    (m, true)
  else
    match openResult with
    | some dev =>
        ({ m with
            serial_port := some dev
            is_open := true
            running := true
            read_threads_started := m.read_threads_started + 1 }, true)
    | none => ({ m with is_open := false }, false)

/-- `UARTManager.disconnect`: stops the reader loop, closes the handle when
present and open, clears `is_open` and drops the handle. -/
def UARTManager.disconnect (m : UARTManager) : UARTManager :=
  { m with running := false, is_open := false, serial_port := none }

/-- What one pass of the `_read_loop` body observes on the device. -/
inductive ReadEvent where
  | noData
  | dataRead (chunk : List Nat)
  | serialErr
  | otherErr
deriving DecidableEq, Repr

/-- The `while` condition of `_read_loop`:
`self.running and self.serial_port and self.serial_port.is_open`. -/
def UARTManager.loopCond (m : UARTManager) : Bool :=
  m.running && (match m.serial_port with
                | some d => d.is_open
                | none => false)

/-- One iteration of `UARTManager._read_loop`.  Returns `(state, continue)`.
A `serial.SerialException` during the read sets `self.is_open = False` and
breaks out of the loop; any other exception is logged and the loop goes
on; read data is handed to the data callback, whose effect lives outside
this state (it schedules a websocket broadcast) and whose exceptions are
caught. -/
def UARTManager.readLoopIter (m : UARTManager) (ev : ReadEvent) :
    UARTManager × Bool :=
  if m.loopCond then
    match ev with
    | ReadEvent.serialErr => ({ m with is_open := false }, false)
    | _ => (m, true)
  else
    (m, false)

/-- `UARTManager.write`.  Guard: `not self.serial_port or not
self.serial_port.is_open` returns `False`.  Then `serial_port.write(data)`
and `serial_port.flush()` run inside one `try`; every exception class is
caught and turned into `False`; the byte count returned by the device
write is only logged, never compared with `len(data)`. -/
def UARTManager.write (m : UARTManager) (data : List Nat) :
    UARTManager × Bool :=
  match m.serial_port with
  | none => (m, false)
  | some dev =>
      if dev.is_open = false then
        (m, false)
      else
        match dev.writeRes data with
        | DevWriteRes.ok _n =>
            let dev2 := { dev with written := dev.written ++ [data] }
            if dev.flushOk then
              ({ m with serial_port := some dev2 }, true)
            else
              ({ m with serial_port := some dev2 }, false)
        | _ => (m, false)

/-- `UARTManager.get_status`. -/
def UARTManager.get_status (m : UARTManager) : UARTStatus :=
  { connected := m.is_open
    port := settings.uart_port
    baudrate := settings.uart_baudrate
    bytesize := settings.uart_bytesize
    stopbits := settings.uart_stopbits
    parity := settings.uart_parity }

/-- `models.InfoMessage` (timestamp omitted: no claim concerns it). -/
structure InfoMessage where
  type : String
  message : String
  uartStatus : Option UARTStatus
deriving DecidableEq, Repr

/-- A WebSocket client session, as the broadcaster sees it: an identity
(`sid`), its behaviour (`bin_fail msg` = whether `send_bytes(msg)` raises,
`text_fail` = whether `send_text` raises) and logs of what it received. -/
structure WSSession where
  sid : Nat
  bin_fail : List Nat → Bool
  text_fail : Bool
  received_bytes : List (List Nat)
  received_texts : List InfoMessage

/-- `websocket.send_bytes(msg)`: delivers or raises. -/
def WSSession.sendBytes (s : WSSession) (msg : List Nat) : WSSession × Bool :=
  if s.bin_fail msg then
    (s, false)
  else
    ({ s with received_bytes := s.received_bytes ++ [msg] }, true)

/-- `websocket.send_text(info.model_dump_json())`: delivers or raises. -/
def WSSession.sendText (s : WSSession) (info : InfoMessage) :
    WSSession × Bool :=
  if s.text_fail then
    (s, false)
  else
    ({ s with received_texts := s.received_texts ++ [info] }, true)

/-- State of `WebSocketManager` (`websocket_handler.py`): the set
`active_connections`, modelled as a list of sessions identified by `sid`
(Python stores object references in a `set`; insertion order is
irrelevant to every claim proved here). -/
structure WebSocketManager where
  active_connections : List WSSession

def WebSocketManager.count (m : WebSocketManager) : Nat :=
  m.active_connections.length

/-- `WebSocketManager.send_personal_message`: sends bytes to the one
session the caller designates; a failure is logged and nothing else
happens — in particular the session stays registered. -/
def WebSocketManager.send_personal_message (m : WebSocketManager)
    (sid : Nat) (msg : List Nat) : WebSocketManager :=
  { m with
      active_connections :=
        m.active_connections.map fun c =>
          if c.sid = sid then (c.sendBytes msg).1 else c }

/-- `WebSocketManager.send_info`: sends an `InfoMessage` as JSON text to
one session; a failure is logged and the session stays registered. -/
def WebSocketManager.send_info (m : WebSocketManager) (sid : Nat)
    (info : InfoMessage) : WebSocketManager :=
  { m with
      active_connections :=
        m.active_connections.map fun c =>
          if c.sid = sid then (c.sendText info).1 else c }

/-- `WebSocketManager.connect` (the spec's `join`): accepts the socket,
adds it to `active_connections` under the lock, builds the greeting
`InfoMessage(type="info", ..., uartStatus=current status)` and sends it to
that session via `send_info`.  Returns the new state and the message that
was sent. -/
def WebSocketManager.connect (m : WebSocketManager) (ws : WSSession)
    (status : UARTStatus) : WebSocketManager × InfoMessage :=
  let m1 : WebSocketManager :=
    { m with active_connections := m.active_connections ++ [ws] }
  let info : InfoMessage :=
    { type := "info"
      message := "Connected to UART WebSocket Bridge"
      uartStatus := some status }
  (m1.send_info ws.sid info, info)

/-- `WebSocketManager.broadcast`: takes a snapshot of
`active_connections` under the lock, iterates over the snapshot sending
`msg` to each session (`WebSocketDisconnect` and any other exception put
the session into `disconnected`), then, after the loop, removes the
collected failures from the registry in one update.  Sequentially the
snapshot equals the registry, so the result keeps exactly the sessions
whose send succeeded, each with `msg` appended to its log. -/
def WebSocketManager.broadcast (m : WebSocketManager) (msg : List Nat) :
    WebSocketManager :=
  let connections := m.active_connections
  let results := connections.map fun c => c.sendBytes msg
  { active_connections := (results.filter (fun r => r.2)).map (fun r => r.1) }

/-- One hex digit, as `bytes.fromhex` accepts it. -/
def hexDigit (c : Char) : Option Nat :=
  if '0' ≤ c ∧ c ≤ '9' then some (c.toNat - 48)
  else if 'a' ≤ c ∧ c ≤ 'f' then some (c.toNat - 87)
  else if 'A' ≤ c ∧ c ≤ 'F' then some (c.toNat - 55)
  else none

/-- `bytes.fromhex`: pairs of hex digits, with spaces allowed between
pairs (not inside a pair); a dangling digit or any other character raises
`ValueError`, modelled as `none`. -/
def fromhexChars : List Char → Option (List Nat)
  | [] => some []
  | ' ' :: rest => fromhexChars rest
  | c1 :: c2 :: rest =>
      match hexDigit c1, hexDigit c2, fromhexChars rest with
      | some h, some l, some tail => some ((16 * h + l) :: tail)
      | _, _, _ => none
  | [_] => none

/-- `models.SendDataResponse.status`. -/
inductive SendStatus where
  | success
  | error
deriving DecidableEq, Repr

/-- `models.SendDataResponse` (message text omitted). -/
structure SendDataResponse where
  status : SendStatus
  bytes_sent : Nat
deriving DecidableEq, Repr

/-- The `POST /api/uart/send` handler (`main.py::send_to_uart`): decodes
the hex string (`ValueError` becomes an HTTP 400, modelled as `none`),
calls `uart_manager.write`, and on success reports
`bytes_sent = len(bytes_data)`; on write failure reports `error` with
`bytes_sent = 0`. -/
def send_to_uart (m : UARTManager) (data : String) :
    UARTManager × Option SendDataResponse :=
  match fromhexChars data.toList with
  | none => (m, none)
  | some bytes_data =>
      let r := m.write bytes_data
      if r.2 then
        (r.1, some { status := SendStatus.success
                     bytes_sent := bytes_data.length })
      else
        (r.1, some { status := SendStatus.error, bytes_sent := 0 })

/-!
### Locking model of `UARTManager`

To settle the concurrency claim about mutual exclusion, each method is
transcribed as the sequence of atomic actions it performs, including lock
acquire/release of `self._lock`.  `write` (lines 105–125) takes no lock:
it checks the port, writes and flushes.  `disconnect` (lines 59–76) runs
entirely under the lock: clears `running`, joins the reader thread
(bounded, so it proceeds regardless), closes the device, clears the
flags.  `connect` (lines 22–57) also runs under the lock.  Two threads
running such traces are interleaved by a scheduler; a schedule is valid
only if it never lets a thread acquire a lock another thread holds.
-/

inductive UAction where
  | lockAcquire
  | lockRelease
  | portCheck
  | devWrite
  | devFlush
  | setRunningFalse
  | joinThread
  | devClose
  | clearFlags
  | checkOpen
  | devOpen
  | setOpenFlags
  | startThread
deriving DecidableEq, Repr

/-- Atomic actions of `UARTManager.write`: the guard on
`serial_port.is_open`, the device write, the flush — and no lock. -/
def writeActions : List UAction :=
  [UAction.portCheck, UAction.devWrite, UAction.devFlush]

/-- Atomic actions of `UARTManager.disconnect`, all inside
`with self._lock`. -/
def disconnectActions : List UAction :=
  [UAction.lockAcquire, UAction.setRunningFalse, UAction.joinThread,
   UAction.devClose, UAction.clearFlags, UAction.lockRelease]

/-- Atomic actions of a successful `UARTManager.connect`, all inside
`with self._lock`. -/
def connectActions : List UAction :=
  [UAction.lockAcquire, UAction.checkOpen, UAction.devOpen,
   UAction.setOpenFlags, UAction.startThread, UAction.lockRelease]

/-- One executed step: which of the two threads ran, and what it did. -/
structure Event where
  tid : Bool
  act : UAction
deriving DecidableEq, Repr

/-- Lock semantics: the lock state after thread `b` performs `a`
(`none` = this step is not enabled now, i.e. `b` would block). -/
def lockStep (b : Bool) (a : UAction) (lock : Option Bool) :
    Option (Option Bool) :=
  match a, lock with
  | UAction.lockAcquire, none => some (some b)
  | UAction.lockAcquire, some _ => none
  | UAction.lockRelease, some holder =>
      if holder = b then some none else none
  | UAction.lockRelease, none => none
  | _, _ => some lock

/-- Runs two threads with action lists `t0`, `t1` under the schedule `s`
(`false` = thread 0 steps next).  Returns the executed event sequence,
or `none` when the schedule is invalid (it picks a finished or blocked
thread, or ends before both threads finish). -/
def runSched : List Bool → List UAction → List UAction → Option Bool →
    Option (List Event)
  | [], [], [], _ => some []
  | [], _ :: _, _, _ => none
  | [], [], _ :: _, _ => none
  | false :: _, [], _, _ => none
  | true :: _, _, [], _ => none
  | false :: s, a :: rest, t1, lock =>
      match lockStep false a lock with
      | none => none
      | some lk =>
          match runSched s rest t1 lk with
          | some evs => some (⟨false, a⟩ :: evs)
          | none => none
  | true :: s, t0, a :: rest, lock =>
      match lockStep true a lock with
      | none => none
      | some lk =>
          match runSched s t0 rest lk with
          | some evs => some (⟨true, a⟩ :: evs)
          | none => none

/-- Number of thread switches along a run. -/
def switches : List Bool → Nat
  | [] => 0
  | [_] => 0
  | a :: b :: r => (if a = b then 0 else 1) + switches (b :: r)

/-- A run is serialized when one thread's operation completes before the
other's begins: at most one thread switch. -/
def serializedRun (evs : List Event) : Bool :=
  decide (switches (evs.map fun e => e.tid) ≤ 1)

/-- A valid interleaving of two `write` calls in which thread 1's whole
device write lands between thread 0's device write and flush. -/
def overlapSched : List Bool := [false, false, true, true, true, false]

def overlapEvents : List Event :=
  [⟨false, UAction.portCheck⟩, ⟨false, UAction.devWrite⟩,
   ⟨true, UAction.portCheck⟩, ⟨true, UAction.devWrite⟩,
   ⟨true, UAction.devFlush⟩, ⟨false, UAction.devFlush⟩]

/-- A valid interleaving of a `write` (thread 0) with a `disconnect`
(thread 1) in which the device is closed between the write's device
write and its flush. -/
def closeDuringWriteSched : List Bool :=
  [false, false, true, true, true, true, true, true, false]

def closeDuringWriteEvents : List Event :=
  [⟨false, UAction.portCheck⟩, ⟨false, UAction.devWrite⟩,
   ⟨true, UAction.lockAcquire⟩, ⟨true, UAction.setRunningFalse⟩,
   ⟨true, UAction.joinThread⟩, ⟨true, UAction.devClose⟩,
   ⟨true, UAction.clearFlags⟩, ⟨true, UAction.lockRelease⟩,
   ⟨false, UAction.devFlush⟩]

/-- The fully serial schedule: all of thread 0, then all of thread 1. -/
def serialSched : List Bool :=
  [false, false, false, false, false, false,
   true, true, true, true, true, true]

def serialCDEvents : List Event :=
  [⟨false, UAction.lockAcquire⟩, ⟨false, UAction.checkOpen⟩,
   ⟨false, UAction.devOpen⟩, ⟨false, UAction.setOpenFlags⟩,
   ⟨false, UAction.startThread⟩, ⟨false, UAction.lockRelease⟩,
   ⟨true, UAction.lockAcquire⟩, ⟨true, UAction.setRunningFalse⟩,
   ⟨true, UAction.joinThread⟩, ⟨true, UAction.devClose⟩,
   ⟨true, UAction.clearFlags⟩, ⟨true, UAction.lockRelease⟩]

/-! ### Concrete fixtures used by witnesses -/

/-- A healthy simulated device: open, accepts every write, flush succeeds.
The device-level write reports `0` bytes written (pyserial may report any
count; `UARTManager.write` never looks at it). -/
def okDevice : SerialDevice :=
  { is_open := true
    written := []
    writeRes := fun _ => DevWriteRes.ok 0
    flushOk := true }

/-- A manager in the `Open` state holding `okDevice`. -/
def openManager : UARTManager :=
  { serial_port := some okDevice
    is_open := true
    running := true
    read_threads_started := 1 }

/-- A session whose sends always succeed. -/
def sessionA : WSSession :=
  { sid := 1, bin_fail := fun _ => false, text_fail := false
    received_bytes := [], received_texts := [] }

/-- A session whose binary sends always raise. -/
def sessionB : WSSession :=
  { sid := 2, bin_fail := fun _ => true, text_fail := false
    received_bytes := [], received_texts := [] }

/-- A registry holding `sessionA` and `sessionB`. -/
def twoSessions : WebSocketManager :=
  { active_connections := [sessionA, sessionB] }

/-! ### Helper lemmas -/

/-- What `broadcast` leaves in the registry: exactly the sessions whose
send succeeded, each with the payload appended once to its log. -/
theorem broadcast_active_eq (l : List WSSession) (msg : List Nat) :
    ((l.map fun c => c.sendBytes msg).filter (fun r => r.2)).map
        (fun r => r.1)
      = (l.filter fun c => !(c.bin_fail msg)).map
          (fun c => { c with received_bytes := c.received_bytes ++ [msg] }) := by
  induction l with
  | nil => rfl
  | cons c l ih =>
      by_cases h : c.bin_fail msg
      · have hc : c.sendBytes msg = (c, false) := by
          simp [WSSession.sendBytes, h]
        simp [hc, h, ih]
      · have hc : c.sendBytes msg
            = ({ c with received_bytes := c.received_bytes ++ [msg] }, true) := by
          simp [WSSession.sendBytes, h]
        simp [hc, h, ih]

/-- Keeping the non-failing sessions shrinks the registry by exactly the
number of failing ones. -/
theorem filter_not_fail_length (l : List WSSession) (msg : List Nat) :
    (l.filter fun c => !(c.bin_fail msg)).length
      = l.length - (l.filter fun c => c.bin_fail msg).length := by
  induction l with
  | nil => rfl
  | cons c l ih =>
      have hle := l.length_filter_le fun c => c.bin_fail msg
      by_cases h : c.bin_fail msg <;> (simp [h, ih]; try omega)

/-- Any action other than a lock acquire or release leaves the lock
untouched and is always enabled. -/
theorem lockStep_plain (b : Bool) (a : UAction) (lock : Option Bool)
    (h1 : a ≠ UAction.lockAcquire) (h2 : a ≠ UAction.lockRelease) :
    lockStep b a lock = some lock := by
  cases a <;> simp_all [lockStep]

/-- While thread 0 holds the lock and thread 1 is still waiting on its
own acquire, only thread 0 can step, so its remaining plain actions and
its release execute as one uninterrupted block. -/
theorem run_locked_left :
    ∀ (mid : List UAction),
      (∀ a ∈ mid, a ≠ UAction.lockAcquire ∧ a ≠ UAction.lockRelease) →
      ∀ (t1 : List UAction) (s : List Bool) (evs : List Event),
        runSched s (mid ++ [UAction.lockRelease])
            (UAction.lockAcquire :: t1) (some false) = some evs →
        ∃ evs', evs = (mid ++ [UAction.lockRelease]).map
              (fun a => Event.mk false a) ++ evs'
          ∧ ∃ s', runSched s' [] (UAction.lockAcquire :: t1) none
              = some evs' := by
  intro mid
  induction mid with
  | nil =>
      intro hmid t1 s evs h
      cases s with
      | nil => simp [runSched] at h
      | cons b s2 =>
          cases b
          · simp only [List.nil_append, runSched, lockStep, if_pos] at h
            split at h
            · rename_i evs2 heq
              injection h with h
              subst h
              exact ⟨evs2, by simp, s2, heq⟩
            · exact absurd h (by simp)
          · simp [runSched, lockStep] at h
  | cons a mid2 ih =>
      intro hmid t1 s evs h
      have ha := hmid a (List.mem_cons_self a mid2)
      have hmid2 : ∀ a ∈ mid2,
          a ≠ UAction.lockAcquire ∧ a ≠ UAction.lockRelease :=
        fun x hx => hmid x (List.mem_cons_of_mem a hx)
      cases s with
      | nil => simp [runSched] at h
      | cons b s2 =>
          cases b
          · have hstep := lockStep_plain false a (some false) ha.1 ha.2
            simp only [List.cons_append, runSched, hstep] at h
            split at h
            · rename_i evs2 heq
              injection h with h
              subst h
              obtain ⟨evs', hevs2, s', heq'⟩ := ih hmid2 t1 s2 evs2 heq
              exact ⟨evs', by simp [hevs2], s', heq'⟩
            · exact absurd h (by simp)
          · simp [runSched, lockStep] at h

/-- Mirror image of `run_locked_left` for thread 1 holding the lock. -/
theorem run_locked_right :
    ∀ (mid : List UAction),
      (∀ a ∈ mid, a ≠ UAction.lockAcquire ∧ a ≠ UAction.lockRelease) →
      ∀ (t0 : List UAction) (s : List Bool) (evs : List Event),
        runSched s (UAction.lockAcquire :: t0)
            (mid ++ [UAction.lockRelease]) (some true) = some evs →
        ∃ evs', evs = (mid ++ [UAction.lockRelease]).map
              (fun a => Event.mk true a) ++ evs'
          ∧ ∃ s', runSched s' (UAction.lockAcquire :: t0) [] none
              = some evs' := by
  intro mid
  induction mid with
  | nil =>
      intro hmid t0 s evs h
      cases s with
      | nil => simp [runSched] at h
      | cons b s2 =>
          cases b
          · simp [runSched, lockStep] at h
          · simp only [List.nil_append, runSched, lockStep, if_pos] at h
            split at h
            · rename_i evs2 heq
              injection h with h
              subst h
              exact ⟨evs2, by simp, s2, heq⟩
            · exact absurd h (by simp)
  | cons a mid2 ih =>
      intro hmid t0 s evs h
      have ha := hmid a (List.mem_cons_self a mid2)
      have hmid2 : ∀ a ∈ mid2,
          a ≠ UAction.lockAcquire ∧ a ≠ UAction.lockRelease :=
        fun x hx => hmid x (List.mem_cons_of_mem a hx)
      cases s with
      | nil => simp [runSched] at h
      | cons b s2 =>
          cases b
          · simp [runSched, lockStep] at h
          · have hstep := lockStep_plain true a (some true) ha.1 ha.2
            simp only [List.cons_append, runSched, hstep] at h
            split at h
            · rename_i evs2 heq
              injection h with h
              subst h
              obtain ⟨evs', hevs2, s', heq'⟩ := ih hmid2 t0 s2 evs2 heq
              exact ⟨evs', by simp [hevs2], s', heq'⟩
            · exact absurd h (by simp)

/-- Once thread 0 is finished, a valid schedule just runs thread 1 to
completion: the remaining events are thread 1's actions in order. -/
theorem run_only_right :
    ∀ (s : List Bool) (t1 : List UAction) (lock : Option Bool)
      (evs : List Event), runSched s [] t1 lock = some evs →
      evs = t1.map (fun a => Event.mk true a) := by
  intro s
  induction s with
  | nil =>
      intro t1 lock evs h
      cases t1 with
      | nil =>
          simp only [runSched] at h
          injection h with h
          subst h
          rfl
      | cons a r => simp [runSched] at h
  | cons b s2 ih =>
      intro t1 lock evs h
      cases b
      · simp [runSched] at h
      · cases t1 with
        | nil => simp [runSched] at h
        | cons a rest =>
            simp only [runSched] at h
            split at h
            · exact absurd h (by simp)
            · rename_i lk hlk
              split at h
              · rename_i evs2 heq
                injection h with h
                subst h
                simp [ih rest lk evs2 heq]
              · exact absurd h (by simp)

/-- Mirror image of `run_only_right`. -/
theorem run_only_left :
    ∀ (s : List Bool) (t0 : List UAction) (lock : Option Bool)
      (evs : List Event), runSched s t0 [] lock = some evs →
      evs = t0.map (fun a => Event.mk false a) := by
  intro s
  induction s with
  | nil =>
      intro t0 lock evs h
      cases t0 with
      | nil =>
          simp only [runSched] at h
          injection h with h
          subst h
          rfl
      | cons a r => simp [runSched] at h
  | cons b s2 ih =>
      intro t0 lock evs h
      cases b
      · cases t0 with
        | nil => simp [runSched] at h
        | cons a rest =>
            simp only [runSched] at h
            split at h
            · exact absurd h (by simp)
            · rename_i lk hlk
              split at h
              · rename_i evs2 heq
                injection h with h
                subst h
                simp [ih rest lk evs2 heq]
              · exact absurd h (by simp)
      · simp [runSched] at h

/-- Every valid complete interleaving of a `connect` and a `disconnect`
is serialized: whichever thread acquires the lock first runs to
completion before the other thread's first action. -/
theorem connect_disconnect_serialized :
    ∀ (s : List Bool) (evs : List Event),
      runSched s connectActions disconnectActions none = some evs →
      serializedRun evs = true := by
  intro s evs h
  cases s with
  | nil => simp [runSched, connectActions, disconnectActions] at h
  | cons b s2 =>
      cases b
      · simp only [connectActions, disconnectActions, runSched,
          lockStep] at h
        split at h
        · rename_i evs2 heq
          injection h with h
          subst h
          obtain ⟨evs', hevs2, s', heq'⟩ := run_locked_left
            [UAction.checkOpen, UAction.devOpen, UAction.setOpenFlags,
             UAction.startThread] (by decide)
            [UAction.setRunningFalse, UAction.joinThread,
             UAction.devClose, UAction.clearFlags, UAction.lockRelease]
            s2 evs2 heq
          have hr := run_only_right s' _ _ _ heq'
          subst hr
          rw [hevs2]
          decide
        · exact absurd h (by simp)
      · simp only [connectActions, disconnectActions, runSched,
          lockStep] at h
        split at h
        · rename_i evs2 heq
          injection h with h
          subst h
          obtain ⟨evs', hevs2, s', heq'⟩ := run_locked_right
            [UAction.setRunningFalse, UAction.joinThread,
             UAction.devClose, UAction.clearFlags] (by decide)
            [UAction.checkOpen, UAction.devOpen, UAction.setOpenFlags,
             UAction.startThread, UAction.lockRelease]
            s2 evs2 heq
          have hr := run_only_left s' _ _ _ heq'
          subst hr
          rw [hevs2]
          decide
        · exact absurd h (by simp)

/-! ### Claims -/

/-- Claim C1 counterexample: starting from a fresh manager, `connect`
succeeds, then the reader loop hits a device read error, which sets
`is_open = False` — the link is no longer Open and `status()` reports
disconnected — yet the very next `write` returns true, because `write`
only checks `serial_port.is_open`, which the read-error path never
touches.  This refutes both "write when the link is not Open returns
false" and "after a reader-loop device error every subsequent write
returns false until a later connect". -/
theorem C1_counterexample :
    (((UARTManager.init.connect (some okDevice)).1.readLoopIter
        ReadEvent.serialErr).1.get_status).connected = false
    ∧ ((((UARTManager.init.connect (some okDevice)).1.readLoopIter
        ReadEvent.serialErr).1.write [1]).2 = true) := by
  exact ⟨rfl, rfl⟩

/-- Claim C1 as amended: `write` returns false (and raises nothing)
exactly when the device handle is absent or the handle itself is closed;
the reader loop's device-error transition clears only the manager's
`is_open` flag and leaves the handle in place, so it does not by itself
make subsequent writes fail; every write returns false once `disconnect`
has dropped the handle. -/
theorem C1_write_guard_is_handle_not_link (m : UARTManager)
    (data : List Nat) :
    (m.serial_port = none → m.write data = (m, false))
    ∧ (∀ dev, m.serial_port = some dev → dev.is_open = false →
        m.write data = (m, false))
    ∧ (m.readLoopIter ReadEvent.serialErr).1.serial_port = m.serial_port
    ∧ m.disconnect.write data = (m.disconnect, false) := by
  refine ⟨?_, ?_, ?_, ?_⟩
  · intro h
    simp [UARTManager.write, h]
  · intro dev hport hopen
    simp [UARTManager.write, hport, hopen]
  · by_cases h : m.loopCond <;> simp [UARTManager.readLoopIter, h]
  · simp [UARTManager.disconnect, UARTManager.write]

/-- Witness for the amended C1: on the never-connected manager `write`
returns false without raising. -/
theorem C1_write_guard_is_handle_not_link_witness :
    UARTManager.init.write [7] = (UARTManager.init, false) :=
  (C1_write_guard_is_handle_not_link UARTManager.init [7]).1 rfl

/-- Claim C2: `broadcast` iterates over a snapshot of the registry; the
registry afterwards consists exactly of the snapshotted sessions whose
send succeeded, each holding the payload appended exactly once to its
receive log; hence every succeeding session received the payload
byte-for-byte once, every failing session is gone after the single
follow-up update, and `count()` drops by exactly the number of failing
sessions. -/
theorem C2_broadcast_delivery_and_pruning (m : WebSocketManager)
    (msg : List Nat) :
    (m.broadcast msg).active_connections
        = (m.active_connections.filter fun c => !(c.bin_fail msg)).map
            (fun c => { c with received_bytes := c.received_bytes ++ [msg] })
    ∧ (m.broadcast msg).count
        = m.count
            - (m.active_connections.filter fun c => c.bin_fail msg).length
    ∧ (∀ c ∈ m.active_connections, c.bin_fail msg = false →
        { c with received_bytes := c.received_bytes ++ [msg] }
          ∈ (m.broadcast msg).active_connections)
    ∧ (∀ c2 ∈ (m.broadcast msg).active_connections,
        c2.bin_fail msg = false) := by
  have hb : (m.broadcast msg).active_connections
      = (m.active_connections.filter fun c => !(c.bin_fail msg)).map
          (fun c => { c with received_bytes := c.received_bytes ++ [msg] }) :=
    broadcast_active_eq m.active_connections msg
  refine ⟨hb, ?_, ?_, ?_⟩
  · show (m.broadcast msg).active_connections.length = _
    rw [hb, List.length_map]
    exact filter_not_fail_length m.active_connections msg
  · intro c hc hok
    rw [hb]
    exact List.mem_map_of_mem _
      (List.mem_filter.mpr ⟨hc, by simp [hok]⟩)
  · intro c2 hc2
    rw [hb] at hc2
    rcases List.mem_map.mp hc2 with ⟨c, hcmem, hceq⟩
    rcases List.mem_filter.mp hcmem with ⟨-, hcok⟩
    subst hceq
    simpa using hcok

/-- Witness for C2: two sessions, one of which fails every send; after a
broadcast the count drops from 2 to 1 and the surviving session holds the
payload exactly once. -/
theorem C2_broadcast_delivery_and_pruning_witness :
    (twoSessions.broadcast [1, 2]).count = 1
    ∧ { sessionA with received_bytes := [[1, 2]] }
        ∈ (twoSessions.broadcast [1, 2]).active_connections := by
  constructor
  · have h := (C2_broadcast_delivery_and_pruning twoSessions [1, 2]).2.1
    simpa [twoSessions, sessionA, sessionB, WebSocketManager.count] using h
  · exact (C2_broadcast_delivery_and_pruning twoSessions [1, 2]).2.2.1
      sessionA (by simp [twoSessions]) rfl

/-- Claim C4: `join` (the handler's `connect`) appends the new session to
the active set and then sends it exactly one `InfoMessage` of kind
`info` carrying the passed-in link status snapshot; the new session's
binary log is untouched, so no broadcast payload precedes the greeting.
The session is new, so no registered session already carries its id. -/
theorem C4_join_sends_one_info (m : WebSocketManager) (ws : WSSession)
    (status : UARTStatus)
    (hfresh : ∀ c ∈ m.active_connections, c.sid ≠ ws.sid)
    (hok : ws.text_fail = false) :
    (m.connect ws status).2.type = "info"
    ∧ (m.connect ws status).2.uartStatus = some status
    ∧ (m.connect ws status).1.active_connections
        = m.active_connections
          ++ [{ ws with
                  received_texts :=
                    ws.received_texts ++ [(m.connect ws status).2] }] := by
  refine ⟨rfl, rfl, ?_⟩
  simp only [WebSocketManager.connect, WebSocketManager.send_info,
    List.map_append]
  congr 1
  · refine (List.map_congr_left fun c hc => ?_).trans
      m.active_connections.map_id
    simp [hfresh c hc]
  · simp [WSSession.sendText, hok]

/-- Witness for C4: a fresh session joining an empty registry receives
the greeting as its only message. -/
theorem C4_join_sends_one_info_witness :
    ((WebSocketManager.mk []).connect sessionA
        UARTManager.init.get_status).1.active_connections
      = [{ sessionA with
            received_texts :=
              [((WebSocketManager.mk []).connect sessionA
                  UARTManager.init.get_status).2] }] :=
  (C4_join_sends_one_info (WebSocketManager.mk []) sessionA
    UARTManager.init.get_status (by simp) rfl).2.2

/-- Claim C7: a caller-directed send (`send_personal_message` or
`send_info`) never removes a session — the registry keeps the same
size and the same session ids whether or not the delivery raised — in
contrast to `broadcast`, after which no session that fails on the payload
remains registered. -/
theorem C7_directed_send_never_prunes (m : WebSocketManager) (sid : Nat)
    (msg : List Nat) (info : InfoMessage) :
    (m.send_personal_message sid msg).count = m.count
    ∧ (m.send_info sid info).count = m.count
    ∧ (m.send_personal_message sid msg).active_connections.map
        (fun c => c.sid)
        = m.active_connections.map (fun c => c.sid)
    ∧ (m.send_info sid info).active_connections.map (fun c => c.sid)
        = m.active_connections.map (fun c => c.sid)
    ∧ (∀ c2 ∈ (m.broadcast msg).active_connections,
        c2.bin_fail msg = false) := by
  have hbsid : ∀ (c : WSSession), (c.sendBytes msg).1.sid = c.sid := by
    intro c
    by_cases hf : c.bin_fail msg <;> simp [WSSession.sendBytes, hf]
  have htsid : ∀ (c : WSSession), (c.sendText info).1.sid = c.sid := by
    intro c
    by_cases hf : c.text_fail <;> simp [WSSession.sendText, hf]
  refine ⟨?_, ?_, ?_, ?_, ?_⟩
  · simp [WebSocketManager.send_personal_message, WebSocketManager.count]
  · simp [WebSocketManager.send_info, WebSocketManager.count]
  · show (m.active_connections.map _).map _ = _
    rw [List.map_map]
    refine List.map_congr_left fun c _ => ?_
    by_cases h : c.sid = sid <;> simp [h, hbsid]
  · show (m.active_connections.map _).map _ = _
    rw [List.map_map]
    refine List.map_congr_left fun c _ => ?_
    by_cases h : c.sid = sid <;> simp [h, htsid]
  · intro c2 hc2
    have hb : (m.broadcast msg).active_connections
        = (m.active_connections.filter fun c => !(c.bin_fail msg)).map
            (fun c =>
              { c with received_bytes := c.received_bytes ++ [msg] }) :=
      broadcast_active_eq m.active_connections msg
    rw [hb] at hc2
    rcases List.mem_map.mp hc2 with ⟨c, hcmem, hceq⟩
    rcases List.mem_filter.mp hcmem with ⟨-, hcok⟩
    subst hceq
    simpa using hcok

/-- Witness for C7: a send to the always-failing session leaves it
registered (count still 1), while a broadcast prunes it (count 0). -/
theorem C7_directed_send_never_prunes_witness :
    ((WebSocketManager.mk [sessionB]).send_personal_message 2 [9]).count
        = 1
    ∧ ((WebSocketManager.mk [sessionB]).broadcast [9]).count = 0 := by
  constructor
  · exact (C7_directed_send_never_prunes (WebSocketManager.mk [sessionB])
      2 [9] { type := "info", message := "", uartStatus := none }).1
  · rfl

/-- Claim C3: for every valid configuration, if `connect` returns true then
`status().connected` is true; after `disconnect`, `status().connected` is
false; `connect` on an already-open link returns true leaving the state
untouched, and `disconnect` on a closed link is a no-op (repeating either
call changes nothing). -/
theorem C3_connect_disconnect_status (m : UARTManager)
    (r : Option SerialDevice) :
    ((m.connect r).2 = true → ((m.connect r).1.get_status).connected = true)
    ∧ (m.disconnect.get_status).connected = false
    ∧ (m.is_open = true → m.connect r = (m, true))
    ∧ m.disconnect.disconnect = m.disconnect := by
  refine ⟨?_, ?_, ?_, ?_⟩
  · intro h
    by_cases ho : m.is_open
    · simp [UARTManager.connect, ho, UARTManager.get_status]
    · cases r with
      | none => simp [UARTManager.connect, ho] at h
      | some dev => simp [UARTManager.connect, ho, UARTManager.get_status]
  · simp [UARTManager.disconnect, UARTManager.get_status]
  · intro ho
    simp [UARTManager.connect, ho]
  · simp [UARTManager.disconnect]

/-- Witness for C3 at a concrete closed manager and healthy device. -/
theorem C3_connect_disconnect_status_witness :
    ((UARTManager.init.connect (some okDevice)).1.get_status).connected
      = true :=
  (C3_connect_disconnect_status UARTManager.init (some okDevice)).1 rfl

/-- Claim C5: a write-timeout or device error during the device write
leaves the manager completely unchanged and returns false; a flush
failure also returns false and leaves the open flag, the running flag and
the handle's presence and openness unchanged — a write failure alone
never closes the link. -/
theorem C5_write_failure_preserves_link (m : UARTManager)
    (dev : SerialDevice) (data : List Nat)
    (hport : m.serial_port = some dev) (hopen : dev.is_open = true) :
    ((dev.writeRes data = DevWriteRes.timeout
        ∨ dev.writeRes data = DevWriteRes.serialError
        ∨ dev.writeRes data = DevWriteRes.otherError) →
      m.write data = (m, false))
    ∧ (∀ n, dev.writeRes data = DevWriteRes.ok n → dev.flushOk = false →
        (m.write data).2 = false
        ∧ (m.write data).1.is_open = m.is_open
        ∧ (m.write data).1.running = m.running
        ∧ ∃ d2, (m.write data).1.serial_port = some d2
            ∧ d2.is_open = dev.is_open) := by
  constructor
  · rintro (hw | hw | hw) <;> simp [UARTManager.write, hport, hopen, hw]
  · intro n hw hf
    refine ⟨?_, ?_, ?_, ?_⟩ <;>
      simp [UARTManager.write, hport, hopen, hw, hf]

/-- Witness for C5 at a concrete timing-out device. -/
theorem C5_write_failure_preserves_link_witness :
    ({ openManager with
        serial_port := some { okDevice with
                                writeRes := fun _ => DevWriteRes.timeout }
      } : UARTManager).write [1, 2]
      = ({ openManager with
            serial_port := some { okDevice with
                                    writeRes := fun _ => DevWriteRes.timeout }
          }, false) :=
  (C5_write_failure_preserves_link _
      { okDevice with writeRes := fun _ => DevWriteRes.timeout }
      [1, 2] rfl rfl).1 (Or.inl rfl)

/-- Claim C6: `connect` on an already-open link returns true and performs
no side effects at all: the returned state is the input state, so no
device handle is replaced, no flag changes, and the count of reader loops
ever started stays the same. -/
theorem C6_connect_idempotent_when_open (m : UARTManager)
    (r : Option SerialDevice) (h : m.is_open = true) :
    m.connect r = (m, true) := by
  simp [UARTManager.connect, h]

/-- Witness for C6 at the concrete open manager. -/
theorem C6_connect_idempotent_when_open_witness :
    openManager.connect none = (openManager, true) :=
  C6_connect_idempotent_when_open openManager none rfl

/-- Claim C9 counterexample: a valid interleaving of two concurrent
`write` calls in which thread 1's whole device write lands between
thread 0's device write and flush — the two writes execute concurrently,
because `write` never touches the lock, so nothing serializes them. -/
theorem C9_counterexample :
    runSched overlapSched writeActions writeActions none
        = some overlapEvents
    ∧ serializedRun overlapEvents = false := by
  decide

/-- Claim C9 as amended: `connect` and `disconnect` are serialized with
each other by `self._lock` (every valid interleaving of the two runs one
to completion before the other starts), but `write` performs its port
check, device write and flush without acquiring any lock, so two
concurrent writes may interleave at the device, and a concurrent
`disconnect` may close the device between a write's device write and its
flush. -/
theorem C9_only_lifecycle_is_serialized (s : List Bool)
    (evs : List Event) :
    UAction.lockAcquire ∉ writeActions
    ∧ runSched closeDuringWriteSched writeActions disconnectActions none
        = some closeDuringWriteEvents
    ∧ serializedRun closeDuringWriteEvents = false
    ∧ (runSched s connectActions disconnectActions none = some evs →
        serializedRun evs = true) := by
  exact ⟨by decide, by decide, by decide,
    connect_disconnect_serialized s evs⟩

/-- Witness for the amended C9: the serial schedule of a `connect`
followed by a `disconnect` is valid and serialized. -/
theorem C9_only_lifecycle_is_serialized_witness :
    serializedRun serialCDEvents = true :=
  (C9_only_lifecycle_is_serialized serialSched serialCDEvents).2.2.2
    (by decide)

/-- Claim C8: for a well-formed hex string, the one-shot send endpoint
decodes it, hands exactly the decoded bytes to `write` — so the device's
log grows by that byte sequence — and reports success with `bytes_sent`
equal to the decoded length. -/
theorem C8_hex_send_reports_decoded_length (m : UARTManager)
    (dev : SerialDevice) (s : String) (bs : List Nat) (n : Nat)
    (hhex : fromhexChars s.toList = some bs)
    (hport : m.serial_port = some dev) (hopen : dev.is_open = true)
    (hw : dev.writeRes bs = DevWriteRes.ok n) (hf : dev.flushOk = true) :
    (send_to_uart m s).2
        = some { status := SendStatus.success, bytes_sent := bs.length }
    ∧ ∃ d2, (send_to_uart m s).1.serial_port = some d2
        ∧ d2.written = dev.written ++ [bs] := by
  have hhex2 : fromhexChars s.data = some bs := hhex
  constructor
  · simp [send_to_uart, hhex2, UARTManager.write, hport, hopen, hw, hf]
  · refine ⟨{ dev with written := dev.written ++ [bs] }, ?_, rfl⟩
    simp [send_to_uart, hhex2, UARTManager.write, hport, hopen, hw, hf]

/-- Witness for C8: hex `"48656c6c6f"` decodes to the five bytes of
`Hello` and the response reports 5 bytes sent. -/
theorem C8_hex_send_reports_decoded_length_witness :
    (send_to_uart openManager "48656c6c6f").2
      = some { status := SendStatus.success, bytes_sent := 5 } :=
  (C8_hex_send_reports_decoded_length openManager okDevice "48656c6c6f"
    [72, 101, 108, 108, 111] 0 (by decide) rfl rfl rfl rfl).1

/-- Claim C10: `write` returns true whenever the device write and flush
raise no exception, whatever byte count the device reports — here a
device that reports `n < data.length` bytes written (a short write) still
yields `true`. -/
theorem C10_short_write_reports_success (m : UARTManager)
    (dev : SerialDevice) (data : List Nat) (n : Nat)
    (hport : m.serial_port = some dev) (hopen : dev.is_open = true)
    (hw : dev.writeRes data = DevWriteRes.ok n) (hf : dev.flushOk = true)
    (_hshort : n < data.length) :
    (m.write data).2 = true := by
  simp [UARTManager.write, hport, hopen, hw, hf]

/-- Witness for C10: the device reports 0 of 3 bytes written, yet `write`
returns true. -/
theorem C10_short_write_reports_success_witness :
    (openManager.write [1, 2, 3]).2 = true :=
  C10_short_write_reports_success openManager okDevice [1, 2, 3] 0
    rfl rfl rfl rfl (by decide)

end UartBridge
